import Mathlib

set_option maxRecDepth 100000

namespace PyChef

/-- Byte strings are modelled as lists of natural numbers. -/
abbrev Bytes := List Nat

/-- Byte representation of a text string (Python str.encode), modelled as the
list of character code points; every concrete key used below is ASCII. -/
def strBytes (s : String) : Bytes := s.data.map Char.toNat

/-- Modelled from the spec: SHA-256, the one-way hash used for key derivation
(spec section 3); the hash itself is a library primitive absent from src.
Modelled as a deterministic 32-byte digest function; the claims rely only on
determinism and the fixed 32-byte output length. -/
def sha256 (b : Bytes) : Bytes :=
  let h := b.foldl (fun a c => (a * 131 + c + 7) % 1000003) 5381
  (List.range 32).map (fun i => (h + (i + 1) * (h % 251) + i * i) % 256)

/-- Modelled from the spec: HMAC-SHA256, the keyed hash producing the V2
integrity tag (spec sections 3 and 4.4); the primitive is absent from src.
Modelled as a keyed digest built from the modelled hash; the claims rely only
on determinism and the 32-byte output length. -/
def hmacSHA256 (key msg : Bytes) : Bytes := sha256 (key ++ 54 :: msg ++ 92 :: key)

/-- Modelled from Python binascii.hexlify (absent from src): each byte becomes
the ASCII codes of its two hexadecimal digits. -/
def hexDigit (n : Nat) : Nat := if n < 10 then 48 + n else 87 + n

/-- Hex encoding of a byte string, used for the IV (spec section 3). -/
def hexlify (b : Bytes) : Bytes :=
  List.flatten (b.map fun c => [hexDigit (c / 16 % 16), hexDigit (c % 16)])

/-- Modelled from the spec: standard base64 of a byte string (spec sections 3
and 6); the primitive is absent from src.  Modelled as a radix-64 recoding, two
base-64 digits per byte; the claims rely only on it being a deterministic
invertible recoding whose decode is total on tampered inputs. -/
def b64encode (b : Bytes) : Bytes := List.flatten (b.map fun c => [c / 64, c % 64])

/-- Inverse of the modelled base64: recombine digit pairs into bytes. -/
def b64decode : Bytes → Bytes
  | a :: b :: t => (a * 64 + b) :: b64decode t
  | _ => []

/-- Modelled from the spec (section 4.1): PKCS number 7 padding to the 16-byte
cipher block size; the cipher adapter is absent from src. -/
def pkcs7pad (b : Bytes) : Bytes :=
  let p := 16 - b.length % 16
  b ++ List.replicate p p

/-- Modelled from the spec (section 4.1): strip and validate PKCS number 7
padding; returns none when the padding is invalid. -/
def pkcs7unpad (b : Bytes) : Option Bytes :=
  match b.reverse with
  | [] => none
  | n :: _ =>
    if n = 0 ∨ 16 < n ∨ b.length < n then none
    else if (b.reverse.take n).all (fun c => c = n) then some (b.take (b.length - n))
    else none

/-- Modelled from the spec (section 4.1): the block transform of the CBC mode.
A real AES block permutation is outside the embedding; it is modelled as a
bytewise keyed involution (xor with the key bytes), which preserves the CBC
chaining structure the claims depend on. -/
def blockXor (k b : Bytes) : Bytes := List.zipWith Nat.xor b k

/-- Split a byte string into blocks of 16; the Nat argument is fuel, always
called with the length of the string, which bounds the number of blocks. -/
def chunksGo : Nat → Bytes → List Bytes
  | 0, _ => []
  | _ + 1, [] => []
  | n + 1, c :: t => ((c :: t).take 16) :: chunksGo n ((c :: t).drop 16)

/-- Split a byte string into blocks of 16. -/
def chunks16 (l : Bytes) : List Bytes := chunksGo l.length l

/-- Modelled from the spec (section 4.1): CBC-mode encryption over blocks,
chaining each plaintext block with the previous ciphertext block. -/
def cbcEncBlocks (k : Bytes) : Bytes → List Bytes → List Bytes
  | _, [] => []
  | prev, b :: t =>
    let c := blockXor k (List.zipWith Nat.xor b prev)
    c :: cbcEncBlocks k c t

/-- Modelled from the spec (section 4.1): CBC-mode decryption over blocks. -/
def cbcDecBlocks (k : Bytes) : Bytes → List Bytes → List Bytes
  | _, [] => []
  | prev, c :: t =>
    let p := List.zipWith Nat.xor (blockXor k c) prev
    p :: cbcDecBlocks k c t

/-- Modelled from the spec (section 4.1): the AES-256-CBC cipher adapter object,
holding the derived key and the IV (the chef.aes module is absent from src). -/
structure AES256Cipher where
  key : Bytes
  iv : Bytes
deriving DecidableEq

/-- Cipher adapter encryption: pad then CBC-encrypt. -/
def AES256Cipher.encrypt (c : AES256Cipher) (pt : Bytes) : Bytes :=
  List.flatten (cbcEncBlocks c.key c.iv (chunks16 (pkcs7pad pt)))

/-- Modelled from the spec (section 4.1): decryption fails (returns none) when
the ciphertext length is not a multiple of the block size or the padding is
invalid after decryption. -/
def AES256Cipher.decrypt (c : AES256Cipher) (ct : Bytes) : Option Bytes :=
  if ct.length % 16 = 0 then
    pkcs7unpad (List.flatten (cbcDecBlocks c.key c.iv (chunks16 ct)))
  else none

/-- JSON values: the structured data the envelope codec serializes (spec
section 3): scalars, sequences and mappings. -/
inductive JVal where
  | jnull : JVal
  | jbool : Bool → JVal
  | jnum : Int → JVal
  | jstr : Bytes → JVal
  | jarr : List JVal → JVal
  | jobj : List (Bytes × JVal) → JVal

/-- Decimal text of an integer, as bytes. -/
def intStr (n : Int) : Bytes := strBytes (toString n)

/-- Render a JSON string literal, escaping quote and backslash bytes. -/
def quoteStr (s : Bytes) : Bytes :=
  34 :: List.flatten (s.map fun c => if c = 34 ∨ c = 92 then [92, c] else [c]) ++ [34]

mutual

/-- Modelled from the spec (section 4.2): serialize a value to structured-data
text (Python json.dumps, whose wrapper module is absent from src), with the
default separators of the Python encoder. -/
def dumps : JVal → Bytes
  | .jnull => strBytes "null"
  | .jbool true => strBytes "true"
  | .jbool false => strBytes "false"
  | .jnum n => intStr n
  | .jstr s => quoteStr s
  | .jarr xs => 91 :: dumpsList xs ++ [93]
  | .jobj kvs => 123 :: dumpsObj kvs ++ [125]

/-- Comma-separated rendering of array elements. -/
def dumpsList : List JVal → Bytes
  | [] => []
  | [x] => dumps x
  | x :: y :: t => dumps x ++ [44, 32] ++ dumpsList (y :: t)

/-- Comma-separated rendering of object members. -/
def dumpsObj : List (Bytes × JVal) → Bytes
  | [] => []
  | [(k, v)] => quoteStr k ++ [58, 32] ++ dumps v
  | (k, v) :: p :: t => quoteStr k ++ [58, 32] ++ dumps v ++ [44, 32] ++ dumpsObj (p :: t)

end

/-- Skip JSON whitespace bytes. -/
def skipWs : Bytes → Bytes
  | c :: t => if c = 32 ∨ c = 9 ∨ c = 10 ∨ c = 13 then skipWs t else c :: t
  | [] => []

/-- Parse the body of a JSON string literal up to the closing quote. -/
def parseStrBody : Nat → Bytes → Option (Bytes × Bytes)
  | 0, _ => none
  | _ + 1, [] => none
  | _ + 1, 34 :: t => some ([], t)
  | f + 1, 92 :: c :: t =>
    match parseStrBody f t with
    | some (s, r) => some (c :: s, r)
    | none => none
  | _ + 1, [92] => none
  | f + 1, c :: t =>
    match parseStrBody f t with
    | some (s, r) => some (c :: s, r)
    | none => none

/-- Decimal digit recognizer. -/
def isDigit (c : Nat) : Bool := decide (48 ≤ c ∧ c ≤ 57)

/-- Numeric value of a digit string. -/
def digitsVal (l : Bytes) : Nat := l.foldl (fun a c => a * 10 + (c - 48)) 0

/-- Parse a JSON integer (an optional minus sign and decimal digits). -/
def parseNum (s : Bytes) : Option (JVal × Bytes) :=
  match s with
  | 45 :: t =>
    let ds := t.takeWhile isDigit
    if ds = [] then none else some (.jnum (-(digitsVal ds : Int)), t.drop ds.length)
  | _ =>
    let ds := s.takeWhile isDigit
    if ds = [] then none else some (.jnum (digitsVal ds), s.drop ds.length)

/-- Intermediate result of the recursive-descent parser: a value, a list of
array elements, or a list of object members. -/
inductive PRes where
  | rv : JVal → PRes
  | ra : List JVal → PRes
  | ro : List (Bytes × JVal) → PRes

/-- What the parser is currently parsing: a value, the elements of an array, or
the members of an object. -/
inductive PMode where
  | mv : PMode
  | ma : PMode
  | mo : PMode

/-- Modelled from the spec (section 4.2): parse structured-data text (Python
json.loads); fuel-indexed recursive descent, written as one function over a
mode index so that the recursion is structural on the fuel. -/
def parseGo : Nat → PMode → Bytes → Option (PRes × Bytes)
  | 0, _, _ => none
  | f + 1, .mv, s =>
    match skipWs s with
    | [] => none
    | 34 :: t =>
      match parseStrBody (f + 1) t with
      | some (str, r) => some (.rv (.jstr str), r)
      | none => none
    | 91 :: t =>
      match parseGo f .ma t with
      | some (.ra xs, r) => some (.rv (.jarr xs), r)
      | _ => none
    | 123 :: t =>
      match parseGo f .mo t with
      | some (.ro kvs, r) => some (.rv (.jobj kvs), r)
      | _ => none
    | 110 :: 117 :: 108 :: 108 :: t => some (.rv .jnull, t)
    | 116 :: 114 :: 117 :: 101 :: t => some (.rv (.jbool true), t)
    | 102 :: 97 :: 108 :: 115 :: 101 :: t => some (.rv (.jbool false), t)
    | t =>
      match parseNum t with
      | some (v, r) => some (.rv v, r)
      | none => none
  | f + 1, .ma, s =>
    match skipWs s with
    | 93 :: t => some (.ra [], t)
    | s2 =>
      match parseGo f .mv s2 with
      | some (.rv v, r) =>
        match skipWs r with
        | 44 :: r2 =>
          match parseGo f .ma r2 with
          | some (.ra vs, r3) => some (.ra (v :: vs), r3)
          | _ => none
        | 93 :: r2 => some (.ra [v], r2)
        | _ => none
      | _ => none
  | f + 1, .mo, s =>
    match skipWs s with
    | 125 :: t => some (.ro [], t)
    | 34 :: t =>
      match parseStrBody (f + 1) t with
      | none => none
      | some (k, r) =>
        match skipWs r with
        | 58 :: r2 =>
          match parseGo f .mv r2 with
          | some (.rv v, r3) =>
            match skipWs r3 with
            | 44 :: r4 =>
              match parseGo f .mo r4 with
              | some (.ro kvs, r5) => some (.ro ((k, v) :: kvs), r5)
              | _ => none
            | 125 :: r4 => some (.ro [(k, v)], r4)
            | _ => none
          | _ => none
        | _ => none
    | _ => none

/-- Parse one JSON value from the front of the input. -/
def parseVal (f : Nat) (s : Bytes) : Option (JVal × Bytes) :=
  match parseGo f .mv s with
  | some (.rv v, r) => some (v, r)
  | _ => none

/-- Modelled from the spec (section 4.2): deserialize structured-data text;
returns none on any parse failure (Python json.loads raising ValueError). -/
def loads (b : Bytes) : Option JVal :=
  match parseVal (b.length + 2) b with
  | some (v, r) => if skipWs r = [] then some v else none
  | none => none

/-- Version values as they occur in the Python code: integers or text strings
(an envelope read back from storage can hold either). -/
inductive VersionVal where
  | vint : Int → VersionVal
  | vstr : String → VersionVal
deriving DecidableEq

/-- Python str() applied to a version value. -/
def pyStr : VersionVal → String
  | .vint n => toString n
  | .vstr s => s

/-- Errors of the embedding: the two library exception kinds
(ChefUnsupportedEncryptionVersionError carrying the version, and
ChefDecryptionError carrying its message), the Python runtime errors the code
can raise (KeyError, TypeError, AttributeError), and the failure signalled by
the cipher adapter, modelled from spec section 4.1. -/
inductive PyErr where
  | chefUnsupportedVersion : VersionVal → PyErr
  | chefDecryptionError : String → PyErr
  | keyError : String → PyErr
  | typeError : PyErr
  | attributeError : PyErr
  | cipherError : PyErr
deriving DecidableEq

/-- Message of the generic decryption failure in DecryptorVersion1.decrypt. -/
def wrongKeyMsg : String :=
  "Error decrypting data bag value. Most likely the provided key is incorrect"

/-- Message of the integrity failure in DecryptorVersion2.decrypt. -/
def hmacFailMsg : String :=
  "Error decrypting data bag value. HMAC validation failed."

/-- Cryptographic-work events, recorded in the order the code performs them. -/
inductive Event where
  | keyDerive : Event
  | ivGen : Event
  | cipherInit : Event
  | cipherEnc : Event
  | hmacComp : Event
  | cipherDec : Event
deriving DecidableEq

/-- Envelope dict; each field is an Option to model dict key absence. -/
structure Envelope where
  version : Option VersionVal
  encrypted_data : Option Bytes
  iv : Option Bytes
  hmac : Option Bytes
  cipher : Option String
deriving DecidableEq

/-- OpenSSL constant used for the IV length in the source. -/
def EVP_MAX_IV_LENGTH : Nat := 16

/-- State of EncryptorVersion1, translated from its constructor.  The entropy
that os.urandom supplies is passed in as the rand argument; the constructor
turns it into the hex-text IV. -/
structure EncryptorVersion1 where
  plain_key : Bytes
  key : Bytes
  data : JVal
  iv : Bytes
  encryptor : AES256Cipher
  encrypted_data : Option Bytes

/-- EncryptorVersion1.new: derive the key, build the IV from fresh entropy,
construct the cipher, and leave the ciphertext cache empty.  The returned event
list records the cryptographic work done. -/
def encryptorVersion1Init (key : String) (data : JVal) (rand : Bytes) :
    EncryptorVersion1 × List Event :=
  ({ plain_key := strBytes key
     key := sha256 (strBytes key)
     data := data
     iv := hexlify rand
     encryptor := { key := sha256 (strBytes key), iv := hexlify rand }
     encrypted_data := none },
   [Event.keyDerive, Event.ivGen, Event.cipherInit])

/-- EncryptorVersion1.encrypt: memoized; on the first call serialize the value
inside the json_wrapper object and encrypt it, afterwards return the cache. -/
def encryptV1 (s : EncryptorVersion1) : Bytes × EncryptorVersion1 × List Event :=
  match s.encrypted_data with
  | some c => (c, s, [])
  | none =>
    let pt := dumps (.jobj [(strBytes "json_wrapper", s.data)])
    let c := s.encryptor.encrypt pt
    (c, { s with encrypted_data := some c }, [Event.cipherEnc])

/-- EncryptorVersion1.to_dict: emit the V1 envelope fields; calls encrypt. -/
def toDictV1 (s : EncryptorVersion1) : Envelope × EncryptorVersion1 × List Event :=
  let r := encryptV1 s
  ({ version := some (.vint 1)
     encrypted_data := some (b64encode r.1)
     iv := some (b64encode r.2.1.iv)
     hmac := none
     cipher := some "aes-256-cbc" },
   r.2.1, r.2.2)

/-- State of EncryptorVersion2: the V1 state plus the memoized tag. -/
structure EncryptorVersion2 where
  toV1 : EncryptorVersion1
  hmac : Option Bytes

/-- EncryptorVersion2.new: the V1 constructor plus an empty tag cache. -/
def encryptorVersion2Init (key : String) (data : JVal) (rand : Bytes) :
    EncryptorVersion2 × List Event :=
  ({ toV1 := (encryptorVersion1Init key data rand).1, hmac := none },
   (encryptorVersion1Init key data rand).2)

/-- EncryptorVersion2 generate_hmac: the tag is keyed with the RAW passphrase
bytes (self.plain_key) and computed over the base64 text of the ciphertext. -/
def generateHmacV2 (plain_key encrypted_data : Bytes) : Bytes :=
  hmacSHA256 plain_key (b64encode encrypted_data)

/-- EncryptorVersion2.encrypt: run the V1 encryption (memoized), then compute
the tag once and cache it. -/
def encryptV2 (s : EncryptorVersion2) : Bytes × EncryptorVersion2 × List Event :=
  let r := encryptV1 s.toV1
  match s.hmac with
  | some h => (r.1, { toV1 := r.2.1, hmac := some h }, r.2.2)
  | none =>
    (r.1, { toV1 := r.2.1, hmac := some (generateHmacV2 r.2.1.plain_key r.1) },
     r.2.2 ++ [Event.hmacComp])

/-- EncryptorVersion2.to_dict: the V1 dict (with VERSION 2 through dynamic
dispatch) plus the base64 text of the tag. -/
def toDictV2 (s : EncryptorVersion2) : Envelope × EncryptorVersion2 × List Event :=
  let r := encryptV2 s
  ({ version := some (.vint 2)
     encrypted_data := some (b64encode r.1)
     iv := some (b64encode r.2.1.toV1.iv)
     hmac := some (b64encode (r.2.1.hmac.getD []))
     cipher := some "aes-256-cbc" },
   r.2.1, r.2.2)

/-- The two encryptor objects the dispatch layer can return. -/
inductive EncObj where
  | v1 : EncryptorVersion1 → EncObj
  | v2 : EncryptorVersion2 → EncObj

/-- create_encryptor: the Python dict literal evaluates both constructor calls
before the key lookup, so both encryptors are fully built, each consuming its
own entropy, even when the requested version is unsupported; only then does the
failed lookup raise ChefUnsupportedEncryptionVersionError with the version. -/
def create_encryptor (key : String) (data : JVal) (version : VersionVal)
    (rand1 rand2 : Bytes) : Except PyErr EncObj × List Event :=
  let e1 := encryptorVersion1Init key data rand1
  let e2 := encryptorVersion2Init key data rand2
  let result : Except PyErr EncObj :=
    if version = .vint 1 then .ok (.v1 e1.1)
    else if version = .vint 2 then .ok (.v2 e2.1)
    else .error (.chefUnsupportedVersion version)
  (result, e1.2 ++ e2.2)

/-- get_decryption_version: a missing version field defaults to 1; otherwise
the value is accepted when its str() form is the str() form of a supported
version, and the ORIGINAL value (not its integer form) is returned. -/
def get_decryption_version (env : Envelope) : Except PyErr VersionVal :=
  match env.version with
  | some v =>
    if pyStr v = "1" ∨ pyStr v = "2" then .ok v
    else .error (.chefUnsupportedVersion v)
  | none => .ok (.vint 1)

/-- State of DecryptorVersion1, translated from its constructor. -/
structure DecryptorVersion1 where
  key : Bytes
  data : Bytes
  iv : Bytes
  decryptor : AES256Cipher
deriving DecidableEq

/-- DecryptorVersion1.new: derive the key, base64-decode the ciphertext and
the IV, and construct the cipher adapter. -/
def decryptorVersion1Init (key : String) (dataB64 ivB64 : Bytes) :
    DecryptorVersion1 :=
  { key := sha256 (strBytes key)
    data := b64decode dataB64
    iv := b64decode ivB64
    decryptor := { key := sha256 (strBytes key), iv := b64decode ivB64 } }

/-- Field name of the wrapper object. -/
def jsonWrapperKey : Bytes := strBytes "json_wrapper"

/-- Association-list lookup used for the json_wrapper field access. -/
def lookupKey (kvs : List (Bytes × JVal)) (k : Bytes) : Option JVal :=
  match kvs with
  | [] => none
  | (k2, v) :: t => if k2 = k then some v else lookupKey t k

/-- DecryptorVersion1.decrypt.  In the source only the json.loads call sits
inside the try/except ValueError, so a failure signalled by the cipher adapter
is not converted to ChefDecryptionError, and neither is the json_wrapper field
access after a successful parse (a KeyError on a mapping without the field, a
TypeError on a non-mapping value). -/
def decryptV1 (d : DecryptorVersion1) : Except PyErr JVal × List Event :=
  match d.decryptor.decrypt d.data with
  | none => (.error .cipherError, [Event.cipherDec])
  | some pt =>
    match loads pt with
    | none => (.error (.chefDecryptionError wrongKeyMsg), [Event.cipherDec])
    | some v =>
      match v with
      | .jobj kvs =>
        match lookupKey kvs jsonWrapperKey with
        | some x => (.ok x, [Event.cipherDec])
        | none => (.error (.keyError "json_wrapper"), [Event.cipherDec])
      | _ => (.error .typeError, [Event.cipherDec])

/-- State of DecryptorVersion2: the V1 state plus the decoded stored tag and
the original base64 ciphertext text. -/
structure DecryptorVersion2 where
  toV1 : DecryptorVersion1
  hmac : Bytes
  encoded_data : Bytes
deriving DecidableEq

/-- DecryptorVersion2.new. -/
def decryptorVersion2Init (key : String) (dataB64 ivB64 hmacB64 : Bytes) :
    DecryptorVersion2 :=
  { toV1 := decryptorVersion1Init key dataB64 ivB64
    hmac := b64decode hmacB64
    encoded_data := dataB64 }

/-- Modelled from Python itertools.zip_longest with the default fill value:
pair the elements of two lists, padding the shorter side with none. -/
def zipLongest : Bytes → Bytes → List (Option Nat × Option Nat)
  | [], bs => bs.map (fun b => (none, some b))
  | a :: ta, [] => (some a, none) :: zipLongest ta []
  | a :: ta, b :: tb => (some a, some b) :: zipLongest ta tb

/-- The comparison loop of validate_hmac: accumulate the bitwise OR of the
xored byte pairs; when zip_longest has padded with None, the xor of an int and
None raises TypeError, which aborts the loop. -/
def loopXor (acc : Nat) : List (Option Nat × Option Nat) → Except PyErr Nat
  | [] => .ok acc
  | (some x, some y) :: t => loopXor (acc ||| (x ^^^ y)) t
  | _ :: _ => .error .typeError

/-- The whole comparison of validate_hmac: the accumulator starts as the xor of
the two lengths, the loop folds in the byte differences, and the result is the
test that the accumulator is zero. -/
def hmacCompare (expected stored : Bytes) : Except PyErr Bool :=
  (loopXor (expected.length ^^^ stored.length) (zipLongest expected stored)).map
    (fun v => v == 0)

/-- DecryptorVersion2 validate_hmac: the expected tag is keyed with the DERIVED
(hashed) key (self.key), unlike the encryptor side which keys the tag with the
raw passphrase bytes. -/
def validateHmacV2 (d : DecryptorVersion2) : Except PyErr Bool :=
  hmacCompare (hmacSHA256 d.toV1.key d.encoded_data) d.hmac

/-- DecryptorVersion2.decrypt: validate the tag first; on success delegate to
the V1 decrypt logic, on a false result raise the distinct HMAC failure, and
let an error from the validation itself propagate. -/
def decryptV2 (d : DecryptorVersion2) : Except PyErr JVal × List Event :=
  match validateHmacV2 d with
  | .error e => (.error e, [])
  | .ok true => decryptV1 d.toV1
  | .ok false => (.error (.chefDecryptionError hmacFailMsg), [])

/-- The two decryptor objects the dispatch layer can return. -/
inductive DecObj where
  | v1 : DecryptorVersion1 → DecObj
  | v2 : DecryptorVersion2 → DecObj
deriving DecidableEq

/-- Dict field access data[name]: a missing key raises KeyError(name). -/
def envField (f : Option Bytes) (name : String) : Except PyErr Bytes :=
  match f with
  | some b => .ok b
  | none => .error (.keyError name)

/-- create_decryptor: validate the version, then compare the returned value
against the integers 1 and 2.  When get_decryption_version returned a text
version such as "1" or "2", neither integer comparison succeeds and the Python
function falls through, returning None. -/
def create_decryptor (key : String) (env : Envelope) :
    Except PyErr (Option DecObj) := do
  let v ← get_decryption_version env
  if v = .vint 1 then
    let ed ← envField env.encrypted_data "encrypted_data"
    let iv ← envField env.iv "iv"
    return some (.v1 (decryptorVersion1Init key ed iv))
  else if v = .vint 2 then
    let ed ← envField env.encrypted_data "encrypted_data"
    let iv ← envField env.iv "iv"
    let hm ← envField env.hmac "hmac"
    return some (.v2 (decryptorVersion2Init key ed iv hm))
  else
    return none

/-- The call site in EncryptedDataBagItem getitem:
create_decryptor(key, data).decrypt(); calling decrypt on the None returned for
a text version raises AttributeError. -/
def decryptItem (key : String) (env : Envelope) : Except PyErr JVal :=
  match create_decryptor key env with
  | .error e => .error e
  | .ok none => .error .attributeError
  | .ok (some (.v1 d)) => (decryptV1 d).1
  | .ok (some (.v2 d)) => (decryptV2 d).1

/-- Call encrypt n+1 times on a V1 encryptor, threading the state and
accumulating the recorded events. -/
def encryptNV1 : Nat → EncryptorVersion1 → Bytes × EncryptorVersion1 × List Event
  | 0, s => encryptV1 s
  | n + 1, s =>
    ((encryptV1 (encryptNV1 n s).2.1).1,
     (encryptV1 (encryptNV1 n s).2.1).2.1,
     (encryptNV1 n s).2.2 ++ (encryptV1 (encryptNV1 n s).2.1).2.2)

/-- Call encrypt n+1 times on a V2 encryptor, threading the state and
accumulating the recorded events. -/
def encryptNV2 : Nat → EncryptorVersion2 → Bytes × EncryptorVersion2 × List Event
  | 0, s => encryptV2 s
  | n + 1, s =>
    ((encryptV2 (encryptNV2 n s).2.1).1,
     (encryptV2 (encryptNV2 n s).2.1).2.1,
     (encryptNV2 n s).2.2 ++ (encryptV2 (encryptNV2 n s).2.1).2.2)

/-- Flip bit j of the byte at position i of a byte string. -/
def flipBit (l : Bytes) (i j : Nat) : Bytes := l.set i ((l.getD i 0) ^^^ (2 ^ j))

/-- Passphrase of the concrete scenario of spec section 8. -/
def testKey : String := "hunter2"

/-- Plaintext value of the concrete scenario of spec section 8. -/
def testVal : JVal := .jobj [(strBytes "password", .jstr (strBytes "s3cret"))]

/-- Concrete 8-byte entropy standing in for os.urandom. -/
def testRand : Bytes := [1, 35, 69, 103, 137, 171, 205, 239]

/-- V1 envelope produced by the encryptor for the concrete scenario. -/
def testEnvV1 : Envelope := (toDictV1 (encryptorVersion1Init testKey testVal testRand).1).1

/-- V2 envelope produced by the encryptor for the concrete scenario. -/
def testEnvV2 : Envelope := (toDictV2 (encryptorVersion2Init testKey testVal testRand).1).1

/-- Ciphertext of the concrete scenario. -/
def testCiphertext : Bytes := (encryptV1 (encryptorVersion1Init testKey testVal testRand).1).1

/-- Base64 text of the concrete ciphertext. -/
def testEdB64 : Bytes := b64encode testCiphertext

/-- Base64 text of the concrete IV. -/
def testIvB64 : Bytes := b64encode (hexlify testRand)

/-- The tag the V2 DECRYPTOR recomputes for the concrete ciphertext: keyed with
the derived (hashed) key, which is what validate_hmac uses. -/
def expectedTag : Bytes := hmacSHA256 (sha256 (strBytes testKey)) testEdB64

/-- A V2 envelope the decryptor accepts: the stored tag is the tag the
decryptor recomputes.  Because of the key asymmetry this is not the envelope
the encryptor emits. -/
def validEnvV2 : Envelope := { testEnvV2 with hmac := some (b64encode expectedTag) }

/-- The accepted V2 envelope with one bit of its iv field flipped. -/
def cexEnvC2 : Envelope := { validEnvV2 with iv := some (flipBit testIvB64 0 0) }

/-- V2 decryptor whose stored tag decodes to 16 bytes instead of 32. -/
def shortTagDec : DecryptorVersion2 :=
  decryptorVersion2Init testKey testEdB64 testIvB64 (b64encode (List.replicate 16 7))

/-- V2 decryptor whose stored tag has the right length but the wrong value. -/
def wrongTagDec : DecryptorVersion2 :=
  decryptorVersion2Init testKey testEdB64 testIvB64 (b64encode (List.replicate 32 7))

/-- V2 decryptor whose stored tag is exactly the recomputed one. -/
def validTagDec : DecryptorVersion2 :=
  decryptorVersion2Init testKey testEdB64 testIvB64 (b64encode expectedTag)

/-- V1 decryptor whose ciphertext length is not a multiple of the block size. -/
def badLenDec : DecryptorVersion1 :=
  decryptorVersion1Init testKey (b64encode [1, 2, 3]) testIvB64

/-- A ciphertext that decrypts and parses to a mapping without json_wrapper. -/
def noWrapperCt : Bytes :=
  AES256Cipher.encrypt { key := sha256 (strBytes testKey), iv := hexlify testRand }
    (dumps (.jobj [(strBytes "a", .jnum 1)]))

/-- V1 decryptor over the wrapper-less ciphertext. -/
def noWrapperDec : DecryptorVersion1 :=
  decryptorVersion1Init testKey (b64encode noWrapperCt) testIvB64

/-- An otherwise well-formed envelope whose version field holds a text value. -/
def strVerEnv (s : String) : Envelope :=
  { version := some (.vstr s)
    encrypted_data := some testEdB64
    iv := some testIvB64
    hmac := some (b64encode expectedTag)
    cipher := some "aes-256-cbc" }

/-- A bitwise OR of naturals is zero exactly when both sides are zero. -/
theorem lorEqZeroIff (a b : Nat) : a ||| b = 0 ↔ a = 0 ∧ b = 0 := by
  constructor
  · intro h
    have ha : ∀ i, a.testBit i = false := by
      intro i
      have ht : (a ||| b).testBit i = false := by simp [h]
      rw [Nat.testBit_lor] at ht
      exact (Bool.or_eq_false_iff.mp ht).1
    have hb : ∀ i, b.testBit i = false := by
      intro i
      have ht : (a ||| b).testBit i = false := by simp [h]
      rw [Nat.testBit_lor] at ht
      exact (Bool.or_eq_false_iff.mp ht).2
    exact ⟨Nat.zero_of_testBit_eq_false ha, Nat.zero_of_testBit_eq_false hb⟩
  · rintro ⟨rfl, rfl⟩
    rfl

/-- The modelled hash always produces 32 bytes. -/
theorem sha256_length (b : Bytes) : (sha256 b).length = 32 := by
  simp [sha256]

/-- The modelled keyed hash always produces 32 bytes. -/
theorem hmacSHA256_length (k m : Bytes) : (hmacSHA256 k m).length = 32 :=
  sha256_length _

/-- The modelled base64 decode halves the length. -/
theorem b64decode_length : ∀ (l : Bytes), (b64decode l).length = l.length / 2
  | [] => by simp [b64decode]
  | [_] => by simp [b64decode]
  | a :: b :: t => by
    simp [b64decode, b64decode_length t]
    omega

/-- Flipping a bit never changes the length. -/
theorem flipBit_length (l : Bytes) (i j : Nat) : (flipBit l i j).length = l.length :=
  List.length_set l i _

/-- The comparison loop over a list zipped with itself just returns the
accumulator: every xor is zero. -/
theorem loopXor_diag : ∀ (a : Bytes) (acc : Nat), loopXor acc (zipLongest a a) = .ok acc
  | [], _ => by simp [zipLongest, loopXor]
  | x :: t, acc => by
    simp [zipLongest, loopXor, Nat.xor_self, loopXor_diag t acc]

/-- On equal-length inputs the comparison loop runs to completion, and its
result is zero exactly when the accumulator was zero and the inputs agree. -/
theorem loopXor_spec : ∀ (a b : Bytes) (acc : Nat), a.length = b.length →
    ∃ r, loopXor acc (zipLongest a b) = .ok r ∧ (r = 0 ↔ (acc = 0 ∧ a = b))
  | [], [], acc, _ => ⟨acc, by simp [zipLongest, loopXor], by simp⟩
  | [], _ :: _, _, h => by simp at h
  | _ :: _, [], _, h => by simp at h
  | x :: ta, y :: tb, acc, h => by
    have h2 : ta.length = tb.length := by simpa using h
    obtain ⟨r, hr, hiff⟩ := loopXor_spec ta tb (acc ||| (x ^^^ y)) h2
    refine ⟨r, by simpa [zipLongest, loopXor] using hr, ?_⟩
    rw [hiff, lorEqZeroIff, Nat.xor_eq_zero]
    simp [List.cons.injEq, and_assoc]

/-- On unequal-length inputs the comparison loop hits a padded pair and raises
TypeError, whatever the accumulator holds. -/
theorem loopXor_len_ne : ∀ (a b : Bytes) (acc : Nat), a.length ≠ b.length →
    loopXor acc (zipLongest a b) = .error .typeError
  | [], [], _, h => absurd rfl h
  | [], _ :: _, _, _ => by simp [zipLongest, loopXor]
  | _ :: _, [], _, _ => by simp [zipLongest, loopXor]
  | x :: ta, y :: tb, acc, h => by
    have h2 : ta.length ≠ tb.length := by simpa using h
    simpa [zipLongest, loopXor] using loopXor_len_ne ta tb (acc ||| (x ^^^ y)) h2

/-- Comparing a tag with itself returns true. -/
theorem hmacCompare_self (a : Bytes) : hmacCompare a a = .ok true := by
  simp [hmacCompare, Nat.xor_self, loopXor_diag, Except.map]

/-- Comparing two distinct tags of the same length returns false. -/
theorem hmacCompare_ne (a b : Bytes) (h1 : a.length = b.length) (h2 : a ≠ b) :
    hmacCompare a b = .ok false := by
  obtain ⟨r, hr, hiff⟩ := loopXor_spec a b (a.length ^^^ b.length) h1
  have hz : a.length ^^^ b.length = 0 := by rw [h1, Nat.xor_self]
  have hrne : r ≠ 0 := fun h0 => h2 (hiff.mp h0).2
  simp [hmacCompare, hr, Except.map, hrne]

/-- Comparing tags of different lengths raises TypeError. -/
theorem hmacCompare_len_ne (a b : Bytes) (h : a.length ≠ b.length) :
    hmacCompare a b = .error .typeError := by
  simp [hmacCompare, loopXor_len_ne a b _ h, Except.map]

/-- A cached V1 encryptor returns the cache and does no work. -/
theorem encryptV1_cached (s : EncryptorVersion1) (c : Bytes)
    (h : s.encrypted_data = some c) : encryptV1 s = (c, s, []) := by
  simp [encryptV1, h]

/-- A cached V2 encryptor returns the cache and does no work. -/
theorem encryptV2_cached (s : EncryptorVersion2) (c hm : Bytes)
    (h1 : s.toV1.encrypted_data = some c) (h2 : s.hmac = some hm) :
    encryptV2 s = (c, s, []) := by
  obtain ⟨sv1, shm⟩ := s
  simp only at h1 h2
  subst h2
  simp [encryptV2, encryptV1_cached sv1 c h1]

/-- Once one encrypt call is idempotent on its own result, every further call
returns the same triple. -/
theorem encryptNV1_stable (s : EncryptorVersion1)
    (h : encryptV1 (encryptV1 s).2.1 = ((encryptV1 s).1, (encryptV1 s).2.1, [])) :
    ∀ n, encryptNV1 n s = encryptV1 s := by
  intro n
  induction n with
  | zero => rfl
  | succ n ih => simp [encryptNV1, ih, h]

/-- Once one encrypt call is idempotent on its own result, every further call
returns the same triple (V2). -/
theorem encryptNV2_stable (s : EncryptorVersion2)
    (h : encryptV2 (encryptV2 s).2.1 = ((encryptV2 s).1, (encryptV2 s).2.1, [])) :
    ∀ n, encryptNV2 n s = encryptV2 s := by
  intro n
  induction n with
  | zero => rfl
  | succ n ih => simp [encryptNV2, ih, h]

/-- C1: the claim states that for both supported versions, decrypting the
envelope produced by encrypting a value with the same passphrase returns the
value.  At the concrete scenario of spec section 8 the V1 round trip holds, but
the V2 round trip fails with the HMAC-validation error: the encryptor keys the
tag with the raw passphrase bytes while the decryptor recomputes it with the
derived (hashed) key, so the stored and recomputed tags differ. -/
theorem C1_v2_roundtrip_fails :
    decryptItem testKey testEnvV1 = .ok testVal
    ∧ decryptItem testKey testEnvV2 = .error (.chefDecryptionError hmacFailMsg) :=
  ⟨rfl, rfl⟩

/-- Counterexample for C2: a V2 envelope the decryptor accepts (it decrypts to
the original value) stops decrypting to the value after one bit of its iv field
is flipped, but the failure is the generic wrong-key error, not the claimed
integrity (HMAC validation) error: the tag does not cover the iv. -/
theorem C2_iv_flip_counterexample :
    decryptItem testKey validEnvV2 = .ok testVal
    ∧ decryptItem testKey cexEnvC2 = .error (.chefDecryptionError wrongKeyMsg)
    ∧ PyErr.chefDecryptionError wrongKeyMsg ≠ PyErr.chefDecryptionError hmacFailMsg :=
  ⟨rfl, rfl, by decide⟩

/-- C2 (amended): for an accepted V2 envelope, flipping any bit of the
encrypted_data field or of the hmac field makes decryption fail with the HMAC
validation error (given that the flip does not produce a tag collision), but a
flip inside the iv field is invisible to the tag validation, which still
returns true, and decryption proceeds to the V1 cipher-and-parse path. -/
theorem C2_tamper_amended (key : String) (ed iv hm : Bytes) (cf : Option String)
    (i j : Nat)
    (hvalid : b64decode hm = hmacSHA256 (sha256 (strBytes key)) ed)
    (hdata : hmacSHA256 (sha256 (strBytes key)) (flipBit ed i j) ≠ b64decode hm)
    (htag : b64decode (flipBit hm i j) ≠ hmacSHA256 (sha256 (strBytes key)) ed) :
    decryptItem key ⟨some (.vint 2), some (flipBit ed i j), some iv, some hm, cf⟩ =
      .error (.chefDecryptionError hmacFailMsg)
    ∧ decryptItem key ⟨some (.vint 2), some ed, some iv, some (flipBit hm i j), cf⟩ =
      .error (.chefDecryptionError hmacFailMsg)
    ∧ validateHmacV2 (decryptorVersion2Init key ed (flipBit iv i j) hm) = .ok true
    ∧ decryptItem key ⟨some (.vint 2), some ed, some (flipBit iv i j), some hm, cf⟩ =
      (decryptV1 (decryptorVersion1Init key ed (flipBit iv i j))).1 := by
  have hlen : (b64decode hm).length = 32 := by
    rw [hvalid]
    exact hmacSHA256_length _ _
  refine ⟨?_, ?_, ?_, ?_⟩
  · have hv : validateHmacV2 (decryptorVersion2Init key (flipBit ed i j) iv hm) =
        .ok false := by
      show hmacCompare (hmacSHA256 (sha256 (strBytes key)) (flipBit ed i j))
        (b64decode hm) = .ok false
      exact hmacCompare_ne _ _ (by rw [hmacSHA256_length, hlen]) hdata
    show (decryptV2 (decryptorVersion2Init key (flipBit ed i j) iv hm)).1 = _
    simp [decryptV2, hv]
  · have hlen2 : (b64decode (flipBit hm i j)).length = 32 := by
      rw [b64decode_length, flipBit_length]
      have h2 := b64decode_length hm
      omega
    have hv : validateHmacV2 (decryptorVersion2Init key ed iv (flipBit hm i j)) =
        .ok false := by
      show hmacCompare (hmacSHA256 (sha256 (strBytes key)) ed)
        (b64decode (flipBit hm i j)) = .ok false
      exact hmacCompare_ne _ _ (by rw [hmacSHA256_length, hlen2])
        (fun he => htag he.symm)
    show (decryptV2 (decryptorVersion2Init key ed iv (flipBit hm i j))).1 = _
    simp [decryptV2, hv]
  · show hmacCompare (hmacSHA256 (sha256 (strBytes key)) ed) (b64decode hm) = .ok true
    rw [hvalid]
    exact hmacCompare_self _
  · have hv : validateHmacV2 (decryptorVersion2Init key ed (flipBit iv i j) hm) =
        .ok true := by
      show hmacCompare (hmacSHA256 (sha256 (strBytes key)) ed) (b64decode hm) = .ok true
      rw [hvalid]
      exact hmacCompare_self _
    show (decryptV2 (decryptorVersion2Init key ed (flipBit iv i j) hm)).1 = _
    simp only [decryptV2, hv]
    rfl

/-- Witness for the amended C2 at the concrete accepted envelope, flipping bit
0 of byte 0 of each field in turn. -/
theorem C2_tamper_amended_witness :
    b64decode (b64encode expectedTag) = hmacSHA256 (sha256 (strBytes testKey)) testEdB64
    ∧ (decryptItem testKey ⟨some (.vint 2), some (flipBit testEdB64 0 0), some testIvB64,
        some (b64encode expectedTag), some "aes-256-cbc"⟩ =
          .error (.chefDecryptionError hmacFailMsg)
      ∧ decryptItem testKey ⟨some (.vint 2), some testEdB64, some testIvB64,
          some (flipBit (b64encode expectedTag) 0 0), some "aes-256-cbc"⟩ =
          .error (.chefDecryptionError hmacFailMsg)
      ∧ validateHmacV2 (decryptorVersion2Init testKey testEdB64 (flipBit testIvB64 0 0)
          (b64encode expectedTag)) = .ok true
      ∧ decryptItem testKey ⟨some (.vint 2), some testEdB64, some (flipBit testIvB64 0 0),
          some (b64encode expectedTag), some "aes-256-cbc"⟩ =
          (decryptV1 (decryptorVersion1Init testKey testEdB64 (flipBit testIvB64 0 0))).1) :=
  ⟨by decide,
   C2_tamper_amended testKey testEdB64 testIvB64 (b64encode expectedTag)
     (some "aes-256-cbc") 0 0 (by decide) (by decide) (by decide)⟩

/-- Counterexample for C3: requesting version 3 does raise the
unsupported-version error carrying the value 3, but cryptographic work is NOT
avoided: the trace of create_encryptor contains a key derivation (and the rest
of both eagerly built encryptor constructions), refuting the claim that the
error is raised before any key derivation, IV generation or cipher
construction. -/
theorem C3_eager_crypto_counterexample :
    (create_encryptor "k" .jnull (.vint 3) [] []).1 =
      .error (.chefUnsupportedVersion (.vint 3))
    ∧ Event.keyDerive ∈ (create_encryptor "k" .jnull (.vint 3) [] []).2 :=
  ⟨rfl, by decide⟩

/-- C3 (amended): for every version value other than the integers 1 and 2,
create_encryptor raises the unsupported-version error carrying the offending
value, but only after eagerly building both the V1 and the V2 encryptor: key
derivation, IV generation and cipher construction each happen twice before the
error is raised. -/
theorem C3_unsupported_version_amended (key : String) (data : JVal)
    (v : VersionVal) (rand1 rand2 : Bytes)
    (h1 : v ≠ .vint 1) (h2 : v ≠ .vint 2) :
    create_encryptor key data v rand1 rand2 =
      (.error (.chefUnsupportedVersion v),
       [Event.keyDerive, Event.ivGen, Event.cipherInit,
        Event.keyDerive, Event.ivGen, Event.cipherInit]) := by
  simp [create_encryptor, h1, h2, encryptorVersion1Init, encryptorVersion2Init]

/-- Witness for the amended C3 at version 3. -/
theorem C3_unsupported_version_amended_witness :
    (VersionVal.vint 3 ≠ .vint 1) ∧ (VersionVal.vint 3 ≠ .vint 2)
    ∧ create_encryptor "k" .jnull (.vint 3) [] [] =
      (.error (.chefUnsupportedVersion (.vint 3)),
       [Event.keyDerive, Event.ivGen, Event.cipherInit,
        Event.keyDerive, Event.ivGen, Event.cipherInit]) :=
  ⟨by decide, by decide,
   C3_unsupported_version_amended "k" .jnull (.vint 3) [] [] (by decide) (by decide)⟩

/-- C4: the claim states that an envelope whose version field holds the text
"1" or "2" is accepted and dispatched to the matching decryptor.  The version
check does accept the text value, but the dispatch comparisons against the
integers 1 and 2 both fail, so create_decryptor returns None and the caller
then fails with AttributeError; no decryptor is ever constructed. -/
theorem C4_string_version_returns_none :
    get_decryption_version (strVerEnv "2") = .ok (.vstr "2")
    ∧ create_decryptor testKey (strVerEnv "2") = .ok none
    ∧ get_decryption_version (strVerEnv "1") = .ok (.vstr "1")
    ∧ create_decryptor testKey (strVerEnv "1") = .ok none
    ∧ decryptItem testKey (strVerEnv "2") = .error .attributeError :=
  ⟨rfl, rfl, rfl, rfl, rfl⟩

/-- C5: the claim states that the V2 tag validation is total and returns false
on any length mismatch.  In fact, when the stored tag is 16 bytes instead of
32, zip_longest pads with None and the xor raises TypeError; the validation
only runs to completion (returning a boolean) when the lengths agree. -/
theorem C5_validate_hmac_not_total :
    validateHmacV2 shortTagDec = .error .typeError
    ∧ validateHmacV2 wrongTagDec = .ok false
    ∧ validateHmacV2 validTagDec = .ok true :=
  ⟨rfl, rfl, rfl⟩

/-- C6: the claim states that every V2 decryption validates the tag first and
that every mismatch raises the distinct HMAC-validation error.  A same-length
mismatch does raise that error with no cipher decryption attempted, and a
matching tag delegates to the V1 decrypt logic, but a stored tag of a different
length makes the validation itself raise TypeError instead of the claimed
error (still with no cipher decryption attempted). -/
theorem C6_decrypt_dispatch_on_tag :
    decryptV2 shortTagDec = (.error .typeError, [])
    ∧ decryptV2 wrongTagDec = (.error (.chefDecryptionError hmacFailMsg), [])
    ∧ decryptV2 validTagDec = decryptV1 validTagDec.toV1 :=
  ⟨rfl, rfl, rfl⟩

/-- C7: an envelope dict with no version field is treated as version 1: the
version defaults to the integer 1, create_decryptor builds the V1 decryptor
from the encrypted_data and iv fields, and decryption runs the V1 logic. -/
theorem C7_missing_version_defaults_v1 (key : String) (ed iv : Bytes)
    (hm : Option Bytes) (cf : Option String) :
    get_decryption_version ⟨none, some ed, some iv, hm, cf⟩ = .ok (.vint 1)
    ∧ create_decryptor key ⟨none, some ed, some iv, hm, cf⟩ =
        .ok (some (.v1 (decryptorVersion1Init key ed iv)))
    ∧ decryptItem key ⟨none, some ed, some iv, hm, cf⟩ =
        (decryptV1 (decryptorVersion1Init key ed iv)).1 :=
  ⟨rfl, rfl, rfl⟩

/-- Counterexample for C8: the claim states that every failure during V1
decryption collapses to the generic wrong-key ChefDecryptionError.  But a
ciphertext of invalid length makes the cipher adapter failure escape uncaught,
and a plaintext that parses to a mapping without the json_wrapper field
escapes as a KeyError: only the parse stage sits inside the try/except. -/
theorem C8_noncollapsed_errors_counterexample :
    (decryptV1 badLenDec).1 = .error .cipherError
    ∧ (decryptV1 noWrapperDec).1 = .error (.keyError "json_wrapper")
    ∧ PyErr.cipherError ≠ PyErr.chefDecryptionError wrongKeyMsg
    ∧ PyErr.keyError "json_wrapper" ≠ PyErr.chefDecryptionError wrongKeyMsg :=
  ⟨rfl, rfl, by decide, by decide⟩

/-- C8 (amended): V1 decryption raises the generic wrong-key error exactly when
the cipher stage succeeds and the structured-data parse fails; every other
failure (cipher adapter failure, missing wrapper field, non-mapping plaintext)
surfaces as a different error. -/
theorem C8_generic_error_iff_parse_failure (d : DecryptorVersion1) :
    (decryptV1 d).1 = .error (.chefDecryptionError wrongKeyMsg) ↔
      ∃ pt, d.decryptor.decrypt d.data = some pt ∧ loads pt = none := by
  cases h1 : d.decryptor.decrypt d.data with
  | none => simp [decryptV1, h1]
  | some pt =>
    cases h2 : loads pt with
    | none => simp [decryptV1, h1, h2]
    | some v =>
      cases v with
      | jobj kvs =>
        cases h3 : lookupKey kvs jsonWrapperKey with
        | none => simp [decryptV1, h1, h2, h3]
        | some x => simp [decryptV1, h1, h2, h3]
      | jnull => simp [decryptV1, h1, h2]
      | jbool b => simp [decryptV1, h1, h2]
      | jnum n => simp [decryptV1, h1, h2]
      | jstr s => simp [decryptV1, h1, h2]
      | jarr xs => simp [decryptV1, h1, h2]

/-- C9: encryption is memoized.  For every fresh V1 or V2 encryptor and every
number of further encrypt calls, the n-fold call returns the same ciphertext,
state and event trace as the first call (one cipher encryption, plus one tag
computation for V2); the IV is fixed at construction and unchanged, and a
subsequent to_dict call leaves the state unchanged and performs no further
cryptographic work. -/
theorem C9_encrypt_memoized (k : String) (x : JVal) (r : Bytes) (n : Nat) :
    encryptNV1 n (encryptorVersion1Init k x r).1 = encryptV1 (encryptorVersion1Init k x r).1
    ∧ (encryptV1 (encryptorVersion1Init k x r).1).2.2 = [Event.cipherEnc]
    ∧ (encryptV1 (encryptorVersion1Init k x r).1).2.1.iv = (encryptorVersion1Init k x r).1.iv
    ∧ (toDictV1 (encryptV1 (encryptorVersion1Init k x r).1).2.1).2.1 =
        (encryptV1 (encryptorVersion1Init k x r).1).2.1
    ∧ (toDictV1 (encryptV1 (encryptorVersion1Init k x r).1).2.1).2.2 = []
    ∧ encryptNV2 n (encryptorVersion2Init k x r).1 = encryptV2 (encryptorVersion2Init k x r).1
    ∧ (encryptV2 (encryptorVersion2Init k x r).1).2.2 = [Event.cipherEnc, Event.hmacComp]
    ∧ (encryptV2 (encryptorVersion2Init k x r).1).2.1.toV1.iv =
        (encryptorVersion1Init k x r).1.iv
    ∧ (toDictV2 (encryptV2 (encryptorVersion2Init k x r).1).2.1).2.1 =
        (encryptV2 (encryptorVersion2Init k x r).1).2.1
    ∧ (toDictV2 (encryptV2 (encryptorVersion2Init k x r).1).2.1).2.2 = [] := by
  have h1 : (encryptV1 (encryptorVersion1Init k x r).1).2.1.encrypted_data =
      some (encryptV1 (encryptorVersion1Init k x r).1).1 := rfl
  have hfix1 : encryptV1 (encryptV1 (encryptorVersion1Init k x r).1).2.1 =
      ((encryptV1 (encryptorVersion1Init k x r).1).1,
       (encryptV1 (encryptorVersion1Init k x r).1).2.1, []) :=
    encryptV1_cached _ _ h1
  have hfix2 : encryptV2 (encryptV2 (encryptorVersion2Init k x r).1).2.1 =
      ((encryptV2 (encryptorVersion2Init k x r).1).1,
       (encryptV2 (encryptorVersion2Init k x r).1).2.1, []) :=
    encryptV2_cached _ _ _ rfl rfl
  refine ⟨encryptNV1_stable _ hfix1 n, rfl, rfl, ?_, ?_,
    encryptNV2_stable _ hfix2 n, rfl, rfl, ?_, ?_⟩
  · simp [toDictV1, hfix1]
  · simp [toDictV1, hfix1]
  · simp [toDictV2, hfix2]
  · simp [toDictV2, hfix2]

/-- C10: a version-2 envelope dict with no hmac key makes create_decryptor
raise KeyError("hmac") from the field lookup itself, before any decryptor is
built and before any tag validation or decryption, and this KeyError is none
of the taxonomy errors (unsupported version, generic decryption failure,
integrity failure). -/
theorem C10_missing_hmac_keyerror (key : String) (ed iv : Bytes) (cf : Option String) :
    create_decryptor key ⟨some (.vint 2), some ed, some iv, none, cf⟩ =
      .error (.keyError "hmac")
    ∧ decryptItem key ⟨some (.vint 2), some ed, some iv, none, cf⟩ =
      .error (.keyError "hmac") :=
  ⟨rfl, rfl⟩

end PyChef
